import Mathlib

/-!
Shallow embedding of `weather_download.py`, a batch ETL script that fetches
hourly weather observations from the Open-Meteo archive API for a list of
areas and writes one CSV file per month.

Modelling conventions:
* Python floats (coordinates, weather values) are carried opaquely as `Int`
  stand-ins: no claim involves floating-point arithmetic, only the identity,
  order and count of the values.
* A Python function that can raise an uncaught exception is embedded as an
  `Option`-returning function (`none` = the exception escapes); a function
  that catches exceptions and returns `None` after logging returns an
  `Option` result paired with a list of structured `LogEvent`s standing for
  its `print` calls.
* The network and the filesystem are an explicit environment: the upstream
  `weather_api` call is an oracle from the request parameters to an outcome,
  `pd.read_csv` is an `Except` value, and `to_csv` success is a predicate on
  (year, month).
-/

namespace Weather

/-- Stand-in for a Python float carried opaquely (coordinate or weather value). -/
abbrev Val := Int

/-! ### Configuration constants (lines 12-20 of the source) -/

def AREAS_CSV : String := "areas.csv"

def OUTPUT_DIR : String := "weather_data"

def START_YEAR : Int := 2024

def END_YEAR : Int := 2024

def OPENMETEO_HOURLY_VARIABLES : List String :=
  ["temperature_2m", "relative_humidity_2m", "precipitation",
   "rain", "snowfall", "windspeed_10m", "winddirection_10m"]

/-! ### Calendar and datetime (Python `calendar` / `datetime` modules) -/

/-- Python `calendar.isleap(year)`: `year % 4 == 0 and (year % 100 != 0 or year % 400 == 0)`.
Python `%` on a negative left operand with a positive modulus is nonnegative,
matching `Int.emod` with a positive divisor. -/
def isleap (year : Int) : Bool :=
  year % 4 == 0 && (year % 100 != 0 || year % 400 == 0)

/-- Python `calendar.mdays`: day counts per month, index 0 unused. -/
def mdays : List Nat := [0, 31, 28, 31, 30, 31, 30, 31, 31, 30, 31, 30, 31]

/-- The second component of Python `calendar.monthrange(year, month)`:
`mdays[month] + (month == FEBRUARY and isleap(year))`.  Defined for any year
(`calendar.weekday` wraps out-of-range years), but raises `IllegalMonthError`
for a month outside 1..12, modelled as `none`. -/
def monthrange2 (year : Int) (month : Nat) : Option Nat :=
  if 1 ≤ month ∧ month ≤ 12 then
    some (mdays.getD month 0 + if month = 2 ∧ isleap year then 1 else 0)
  else none

/-- A Python `datetime.datetime` at midnight (the script only uses dates). -/
structure Datetime where
  year : Int
  month : Nat
  day : Nat
deriving DecidableEq, Repr

/-- Day count of a month as validated by the `datetime` constructor
(same month-length table and leap rule as `calendar`). -/
def daysInMonth (year : Int) (month : Nat) : Nat :=
  mdays.getD month 0 + if month = 2 ∧ isleap year then 1 else 0

/-- The Python `datetime(year, month, day)` constructor: raises `ValueError`
(modelled as `none`) unless `MINYEAR = 1 ≤ year ≤ 9999 = MAXYEAR`,
`1 ≤ month ≤ 12` and `1 ≤ day ≤` the length of that month. -/
def mkDatetime (year : Int) (month day : Nat) : Option Datetime :=
  if 1 ≤ year ∧ year ≤ 9999 ∧ 1 ≤ month ∧ month ≤ 12 ∧
      1 ≤ day ∧ day ≤ daysInMonth year month then
    some ⟨year, month, day⟩
  else none

/-- `get_end_date(year, month)` (source lines 133-136):
`datetime(year, month, calendar.monthrange(year, month)[1])`.
`none` models an uncaught exception (bad month, or a year the `datetime`
constructor rejects). -/
def get_end_date (year : Int) (month : Nat) : Option Datetime :=
  match monthrange2 year month with
  | none => none
  | some last_day => mkDatetime year month last_day

/-- Modelled from the spec: the standard proleptic Gregorian month length,
as the claim words it — February has 29 days in leap years and 28 otherwise,
April, June, September and November have 30, the rest 31. -/
def gregorianMonthLength (year : Int) (month : Nat) : Nat :=
  if month = 2 then (if isleap year then 29 else 28)
  else if month = 4 ∨ month = 6 ∨ month = 9 ∨ month = 11 then 30
  else 31

/-! ### Month enumerator (`daterange_month`, source lines 127-131) -/

/-- Python `range(a, b)` over integers, as a list. -/
def intRange (a b : Int) : List Int :=
  (List.range (b - a).toNat).map (fun (k : Nat) => a + (k : Int))

/-- `daterange_month(start_year, end_year)`: for each year of
`range(start_year, end_year + 1)`, yield `(year, month)` for each month of
`range(1, 13)`.  The Python generator is materialised as a list. -/
def daterange_month (start_year end_year : Int) : List (Int × Nat) :=
  (intRange start_year (end_year + 1)).flatMap
    (fun year => (List.range 12).map (fun m => (year, m + 1)))

/-- Chronological (lexicographic) strict order on (year, month) pairs;
used to state that the enumerator is strictly ascending. -/
def chronoLt (p q : Int × Nat) : Prop :=
  p.1 < q.1 ∨ (p.1 = q.1 ∧ p.2 < q.2)

/-! ### Upstream responses and the timestamp range -/

/-- The hourly block of an Open-Meteo response: `Time()`, `TimeEnd()`,
`Interval()` (epoch seconds / seconds), and `Variables(i).ValuesAsNumpy()`
as the i-th entry of `variables`; an index beyond the list raises. -/
structure HourlyBlock where
  time : Int
  timeEnd : Int
  interval : Int
  varData : List (List Val)
deriving DecidableEq, Repr

/-- One Open-Meteo response: the location metadata read at source lines 65-70
(fetched but never put into the output table) plus the hourly block. -/
structure Response where
  latitude : Val
  longitude : Val
  elevation : Val
  utcOffsetSeconds : Int
  timezoneName : String
  timezoneAbbr : String
  hourly : HourlyBlock
deriving DecidableEq, Repr

/-- Number of elements of `pd.date_range(start, end, freq, inclusive='left')`
with a positive `freq` of `st` seconds: the count of `k ≥ 0` with
`s + k * st < e`, i.e. `⌈(e - s) / st⌉` clamped to zero. -/
def numSteps (s e st : Int) : Nat :=
  (((e - s) + st - 1) / st).toNat

/-- The timestamp sequence of source lines 82-87: evenly spaced from `s`
(inclusive) towards `e` (exclusive) with step `st`. -/
def dateRangeLeft (s e st : Int) : List Int :=
  (List.range (numSteps s e st)).map (fun (k : Nat) => s + (k : Int) * st)

/-! ### DataFrames -/

/-- One cell of the output table: a timestamp, a weather value, or the area
label. -/
inductive Cell
  | time (t : Int)
  | num (x : Val)
  | str (s : String)
deriving DecidableEq, Repr

/-- A pandas DataFrame, as its ordered list of named columns. -/
abbrev DataFrame := List (String × List Cell)

/-- Row count of a DataFrame (length of its first column; all frames built
here have columns of equal length). -/
def nRows (df : DataFrame) : Nat :=
  match df with
  | [] => 0
  | c :: _ => c.2.length

/-- Values of the column named `name` (pandas label lookup; `[]` for a
missing label, which never occurs for the frames built here). -/
def colValues (df : DataFrame) (name : String) : List Cell :=
  match df.find? (fun c => c.1 = name) with
  | some c => c.2
  | none => []

/-- `pd.concat(dfs, ignore_index=True)` for frames sharing one schema:
the first frame's column names, each column the concatenation of the
corresponding columns of all frames in order. -/
def concatDF (dfs : List DataFrame) : DataFrame :=
  match dfs with
  | [] => []
  | first :: _ =>
    first.map (fun c => (c.1, (dfs.map (fun df => colValues df c.1)).flatten))

/-! ### Logging -/

/-- The console messages of the script, keeping their context arguments. -/
inductive LogEvent
  | readError
  | monthStart (year : Int) (month : Nat)
  | fetching (area : String) (year : Int) (month : Nat)
  | noResponse (lat lon : Val)
  | fetchTypeError (lat lon : Val)
  | fetchError (lat lon : Val)
  | noDataArea (area : String) (year : Int) (month : Nat)
  | processing (area : String) (year : Int) (month : Nat)
  | processError (area : String) (year : Int) (month : Nat)
  | saved (year : Int) (month : Nat)
  | saveError (year : Int) (month : Nat)
  | noDataMonth (year : Int) (month : Nat)
deriving DecidableEq, Repr

/-! ### Weather client adapter (`fetch_open_meteo_data`, source lines 31-53) -/

/-- `strftime('%Y-%m-%d')`: zero-padded ISO date. -/
def pad2 (n : Nat) : String :=
  if n < 10 then "0" ++ toString n else toString n

def pad4 (n : Int) : String :=
  if n < 10 then "000" ++ toString n
  else if n < 100 then "00" ++ toString n
  else if n < 1000 then "0" ++ toString n
  else toString n

def strftimeYmd (d : Datetime) : String :=
  pad4 d.year ++ "-" ++ pad2 d.month ++ "-" ++ pad2 d.day

/-- The request parameter dict built at source lines 34-41. -/
structure OMParams where
  latitude : Val
  longitude : Val
  start_date : String
  end_date : String
  hourly : String
  timezone : String
deriving DecidableEq, Repr

def buildParams (lat lon : Val) (start_date end_date : Datetime) : OMParams :=
  { latitude := lat
    longitude := lon
    start_date := strftimeYmd start_date
    end_date := strftimeYmd end_date
    hourly := String.intercalate "," OPENMETEO_HOURLY_VARIABLES
    timezone := "auto" }

/-- Outcome of one `openmeteo_client.weather_api` call: a (possibly empty)
response list, a `TypeError`, or any other exception. -/
inductive ApiOutcome
  | ok (rs : List Response)
  | typeError
  | exn

/-- The upstream service as an oracle from request parameters to outcomes. -/
abbrev Api := OMParams → ApiOutcome

/-- `fetch_open_meteo_data(lat, lon, start_date, end_date)`: builds the
request, issues it (recorded in the middle component), and returns the first
response, or `none` after logging when the list is empty / falsy or an
exception was raised.  Total: every exception of the call is caught. -/
def fetch_open_meteo_data (api : Api) (lat lon : Val)
    (start_date end_date : Datetime) :
    Option Response × List OMParams × List LogEvent :=
  let params := buildParams lat lon start_date end_date
  match api params with
  | .ok [] => (none, [params], [.noResponse lat lon])
  | .ok (r :: _) => (some r, [params], [])
  | .typeError => (none, [params], [.fetchTypeError lat lon])
  | .exn => (none, [params], [.fetchError lat lon])

/-! ### Response normalizer (`process_data`, source lines 55-125) -/

/-- The `try` body of `process_data` (source lines 61-125): the timestamp
range, the seven positional variables and the DataFrame are built inside a
`try` whose handler logs and returns `None`.  Failure cases, each yielding
the `processError` log: a nonpositive interval (the `pd.date_range`
frequency), a missing variable index, or a variable whose length differs
from the timestamp sequence (the `pd.DataFrame` constructor rejects ragged
columns). -/
def process_response (area : String) (year : Int) (month : Nat)
    (r : Response) : Option DataFrame × List LogEvent :=
  let h := r.hourly
    if h.interval ≤ 0 then
      (none, [.processing area year month, .processError area year month])
    else
      let times := dateRangeLeft h.time h.timeEnd h.interval
      match h.varData[0]?, h.varData[1]?, h.varData[2]?, h.varData[3]?,
            h.varData[4]?, h.varData[5]?, h.varData[6]? with
      | some temperature_2m, some relative_humidity_2m, some precipitation,
        some rain, some snowfall, some windspeed_10m, some winddirection_10m =>
        if temperature_2m.length = times.length ∧
            relative_humidity_2m.length = times.length ∧
            precipitation.length = times.length ∧
            rain.length = times.length ∧
            snowfall.length = times.length ∧
            windspeed_10m.length = times.length ∧
            winddirection_10m.length = times.length then
          let df : DataFrame :=
            [("time", times.map Cell.time),
             ("temperature_2m", temperature_2m.map Cell.num),
             ("relative_humidity_2m", relative_humidity_2m.map Cell.num),
             ("precipitation", precipitation.map Cell.num),
             ("rain", rain.map Cell.num),
             ("snowfall", snowfall.map Cell.num),
             ("windspeed_10m", windspeed_10m.map Cell.num),
             ("winddirection_10m", winddirection_10m.map Cell.num),
             ("area", List.replicate times.length (Cell.str area))]
          (some df, [.processing area year month])
        else
          (none, [.processing area year month, .processError area year month])
      | _, _, _, _, _, _, _ =>
        (none, [.processing area year month, .processError area year month])

/-- `process_data(area, year, month, response)` (source lines 55-125):
dispatch on the `None` check of lines 57-59, then the `try` body. -/
def process_data (area : String) (year : Int) (month : Nat)
    (response : Option Response) : Option DataFrame × List LogEvent :=
  match response with
  | none => (none, [.noDataArea area year month])
  | some r => process_response area year month r

/-! ### Driver (`main`, source lines 138-179) -/

/-- One row of the `areas.csv` table as seen through `row['area']`,
`row['latitude']`, `row['longitude']`: a `none` field models a missing
column, whose lookup raises an uncaught `KeyError`. -/
structure AreaRow where
  area : Option String
  latitude : Option Val
  longitude : Option Val
deriving DecidableEq, Repr

/-- The run's environment: the outcome of `pd.read_csv(AREAS_CSV)`, the
upstream service, and whether `to_csv` succeeds for a given (year, month). -/
structure Env where
  readAreas : Except Unit (List AreaRow)
  api : Api
  writeOk : Int → Nat → Bool

/-- The observable trace of a completed run.  `writes` records each
successful `to_csv` call as (its month, the path passed, the frame
written); `months` records every month iteration that ran to its end. -/
structure RunResult where
  fetches : List OMParams
  writes : List ((Int × Nat) × String × DataFrame)
  months : List (Int × Nat)
  logs : List LogEvent
deriving Repr

/-- `os.path.join(OUTPUT_DIR, f'open_meteo_{year}_{month:02d}.csv')`. -/
def filepath (year : Int) (month : Nat) : String :=
  OUTPUT_DIR ++ "/" ++ "open_meteo_" ++ toString year ++ "_" ++ pad2 month ++ ".csv"

/-- The body of the inner loop (source lines 152-165) for one area row:
column lookups, `datetime(year, month, 1)`, `get_end_date`, fetch, process.
`none` models an uncaught exception (`KeyError` on a missing column,
`ValueError` from `datetime`); otherwise returns the processed frame (if
any), the requests issued, and the log lines printed. -/
def processArea (api : Api) (year : Int) (month : Nat) (row : AreaRow) :
    Option (Option DataFrame × List OMParams × List LogEvent) :=
  match row.area, row.latitude, row.longitude with
  | some area, some lat, some lon =>
    match mkDatetime year month 1, get_end_date year month with
    | some start_date, some end_date =>
      let fr := fetch_open_meteo_data api lat lon start_date end_date
      let pr := process_data area year month fr.1
      some (pr.1, fr.2.1, .fetching area year month :: fr.2.2 ++ pr.2)
    | _, _ => none
  | _, _, _ => none

/-- The inner loop over `areas.iterrows()`: accumulates `monthly_data` in
iteration order, having each area's frame precede later areas'. -/
def monthAreas (api : Api) (year : Int) (month : Nat) :
    List AreaRow → Option (List DataFrame × List OMParams × List LogEvent)
  | [] => some ([], [], [])
  | row :: rest => do
    let (df?, reqs, logs) ← processArea api year month row
    let (dfs, reqs2, logs2) ← monthAreas api year month rest
    some ((df?.toList ++ dfs), reqs ++ reqs2, logs ++ logs2)

/-- Source lines 168-179: write the month's combined frame when
`monthly_data` is nonempty (the `try` around `pd.concat` + `to_csv` logs
and continues on failure), else print that the month has no data. -/
def writeMonth (writeOk : Int → Nat → Bool) (year : Int) (month : Nat)
    (monthly_data : List DataFrame) :
    List ((Int × Nat) × String × DataFrame) × List LogEvent :=
  match monthly_data with
  | [] => ([], [.noDataMonth year month])
  | _ =>
    if writeOk year month then
      ([((year, month), filepath year month, concatDF monthly_data)],
       [.saved year month])
    else
      ([], [.saveError year month])

/-- The outer loop over months. -/
def runMonths (env : Env) (areas : List AreaRow) :
    List (Int × Nat) → Option RunResult
  | [] => some ⟨[], [], [], []⟩
  | (year, month) :: rest => do
    let (dfs, reqs, logs1) ← monthAreas env.api year month areas
    let (ws, logs2) := writeMonth env.writeOk year month dfs
    let r ← runMonths env areas rest
    some ⟨reqs ++ r.fetches, ws ++ r.writes, (year, month) :: r.months,
          .monthStart year month :: logs1 ++ logs2 ++ r.logs⟩

/-- `main()` with the year range as explicit parameters (the source reads
the constants `START_YEAR` / `END_YEAR`): a registry read failure logs and
returns at once; otherwise every month of `daterange_month` is processed.
`none` models an exception escaping `main`. -/
def mainWith (start_year end_year : Int) (env : Env) : Option RunResult :=
  match env.readAreas with
  | .error _ => some ⟨[], [], [], [.readError]⟩
  | .ok areas => runMonths env areas (daterange_month start_year end_year)

/-- `main()` as configured. -/
def main (env : Env) : Option RunResult :=
  mainWith START_YEAR END_YEAR env

/-! ### Concrete fixtures used by witnesses -/

/-- A well-formed response: two hourly steps, seven variables of length 2. -/
def rW : Response :=
  { latitude := 1, longitude := 2, elevation := 3, utcOffsetSeconds := 0,
    timezoneName := "GMT", timezoneAbbr := "GMT",
    hourly := { time := 0, timeEnd := 7200, interval := 3600,
                varData := [[1, 2], [3, 4], [5, 6], [7, 8], [9, 10], [11, 12], [13, 14]] } }

/-- The frame `process_data` produces from `rW`. -/
def dfW : DataFrame := ((process_data "A" 2024 1 (some rW)).1).getD []

/-- A malformed response: the seventh variable has 1 value for 2 timestamps. -/
def rBad : Response :=
  { latitude := 1, longitude := 2, elevation := 3, utcOffsetSeconds := 0,
    timezoneName := "GMT", timezoneAbbr := "GMT",
    hourly := { time := 0, timeEnd := 7200, interval := 3600,
                varData := [[1, 2], [3, 4], [5, 6], [7, 8], [9, 10], [11, 12], [13]] } }

/-- The fixed column-name list of the output schema: `time`, the seven
weather variables in configured order, `area`. -/
def stdCols : List String :=
  ["time", "temperature_2m", "relative_humidity_2m", "precipitation",
   "rain", "snowfall", "windspeed_10m", "winddirection_10m", "area"]

/-- A frame of the standard schema with uniform column lengths — the shape
of every frame `process_data` produces. -/
def stdFrame (df : DataFrame) : Prop :=
  df.map Prod.fst = stdCols ∧ ∀ c ∈ df, c.2.length = nRows df

/-- A registry row with all three required columns present. -/
def rowGood : AreaRow := { area := some "A", latitude := some 1, longitude := some 2 }

/-- A second well-formed registry row with a different area label. -/
def rowGoodB : AreaRow := { area := some "B", latitude := some 3, longitude := some 4 }

/-- An environment whose registry file reads successfully but lacks the
`area`, `latitude` and `longitude` columns. -/
def badEnv : Env :=
  { readAreas := Except.ok [{ area := none, latitude := none, longitude := none }],
    api := fun _ => ApiOutcome.exn, writeOk := fun _ _ => true }

/-- An environment whose registry read fails. -/
def errEnv : Env :=
  { readAreas := Except.error (), api := fun _ => ApiOutcome.exn,
    writeOk := fun _ _ => true }

/-- An environment with an empty (but readable) registry. -/
def okEnv : Env :=
  { readAreas := Except.ok [], api := fun _ => ApiOutcome.exn,
    writeOk := fun _ _ => true }

/-- One good registry row, every upstream call raising. -/
def envW7 : Env :=
  { readAreas := Except.ok [rowGood], api := fun _ => ApiOutcome.exn,
    writeOk := fun _ _ => true }

/-- The trace of the run under `envW7` over the single year 1. -/
def resW7 : RunResult := (mainWith 1 1 envW7).getD ⟨[], [], [], []⟩

/-- Two good registry rows, the upstream always returning `rW`. -/
def envW8 : Env :=
  { readAreas := Except.ok [rowGood, rowGoodB], api := fun _ => ApiOutcome.ok [rW],
    writeOk := fun _ _ => true }

/-- The trace of the run under `envW8` over the single year 1. -/
def resW8 : RunResult := (mainWith 1 1 envW8).getD ⟨[], [], [], []⟩

/-- The per-area frames `envW8` collects for month (1, 1). -/
def tripleW8 : List DataFrame × List OMParams × List LogEvent :=
  (monthAreas envW8.api 1 1 [rowGood, rowGoodB]).getD ([], [], [])

/-! ## Calendar lemmas -/

theorem monthrange2_eq (year : Int) (month : Nat) (h1 : 1 ≤ month)
    (h2 : month ≤ 12) : monthrange2 year month = some (daysInMonth year month) := by
  unfold monthrange2 daysInMonth
  rw [if_pos ⟨h1, h2⟩]

theorem daysInMonth_eq_gregorianMonthLength (year : Int) (month : Nat)
    (h1 : 1 ≤ month) (h2 : month ≤ 12) :
    daysInMonth year month = gregorianMonthLength year month := by
  interval_cases month <;>
    simp only [daysInMonth, gregorianMonthLength, mdays, List.getD] <;>
    first
      | rfl
      | (cases h : isleap year <;> simp [h])

theorem gregorianMonthLength_pos (year : Int) (month : Nat) :
    1 ≤ gregorianMonthLength year month := by
  unfold gregorianMonthLength
  split
  · split <;> omega
  · split <;> omega

/-- Helper: on the `datetime` constructor's year range, `get_end_date`
returns the last day of the month. -/
theorem get_end_date_eq (year : Int) (month : Nat)
    (hy1 : 1 ≤ year) (hy2 : year ≤ 9999) (hm1 : 1 ≤ month) (hm2 : month ≤ 12) :
    get_end_date year month =
      some ⟨year, month, gregorianMonthLength year month⟩ := by
  have hd := daysInMonth_eq_gregorianMonthLength year month hm1 hm2
  have hpos : 1 ≤ daysInMonth year month := by
    rw [hd]; exact gregorianMonthLength_pos year month
  unfold get_end_date
  rw [monthrange2_eq year month hm1 hm2]
  dsimp only
  unfold mkDatetime
  rw [if_pos ⟨hy1, hy2, hm1, hm2, hpos, le_refl _⟩, hd]

/-- C2 (corrected: the claim quantifies over every year, but the Python
`datetime` constructor rejects years outside 1..9999, so `get_end_date`
raises there; at year 10000 it fails instead of returning a date).
Counterexample to the claim as stated: at year 10000, month 1, the claimed
"never fails" result does not hold. -/
theorem get_end_date_year10000_fails :
    get_end_date 10000 1 = none := by decide

/-- C2 (corrected): for every year in the `datetime` range 1..9999 and
every month 1..12, `get_end_date` returns the date of the last day of that
month, the day being the standard proleptic Gregorian month length with
February having 29 days in leap years and 28 otherwise; under this
precondition it never fails. -/
theorem get_end_date_correct (year : Int) (month : Nat)
    (hy1 : 1 ≤ year) (hy2 : year ≤ 9999) (hm1 : 1 ≤ month) (hm2 : month ≤ 12) :
    get_end_date year month =
      some ⟨year, month, gregorianMonthLength year month⟩ :=
  get_end_date_eq year month hy1 hy2 hm1 hm2

/-- Witness for C2: February 2024 (leap) ends on day 29, February 2023 on
day 28. -/
theorem get_end_date_correct_witness :
    get_end_date 2024 2 = some ⟨2024, 2, 29⟩ ∧
    get_end_date 2023 2 = some ⟨2023, 2, 28⟩ := by
  constructor
  · have h := get_end_date_correct 2024 2 (by norm_num) (by norm_num)
      (by norm_num) (by norm_num)
    rw [h]; decide
  · have h := get_end_date_correct 2023 2 (by norm_num) (by norm_num)
      (by norm_num) (by norm_num)
    rw [h]; decide

/-! ## Month enumerator lemmas -/

theorem length_intRange (a b : Int) : (intRange a b).length = (b - a).toNat := by
  unfold intRange
  rw [List.length_map, List.length_range]

theorem mem_intRange {a b x : Int} : x ∈ intRange a b ↔ a ≤ x ∧ x < b := by
  unfold intRange
  simp only [List.mem_map, List.mem_range]
  constructor
  · rintro ⟨k, hk, rfl⟩
    omega
  · rintro ⟨h1, h2⟩
    exact ⟨(x - a).toNat, by omega, by omega⟩

theorem intRange_pairwise (a b : Int) : (intRange a b).Pairwise (· < ·) :=
  (List.pairwise_lt_range _).map _ (fun x y h => by omega)

theorem sum_map_twelve (l : List Int) :
    (l.map (fun _ => (12 : Nat))).sum = 12 * l.length := by
  induction l with
  | nil => simp
  | cons a t ih => simp [ih]; ring

theorem length_daterange_month (y1 y2 : Int) :
    (daterange_month y1 y2).length = 12 * (y2 + 1 - y1).toNat := by
  unfold daterange_month
  rw [List.flatMap_def, List.length_flatten, List.map_map]
  have h : ((intRange y1 (y2 + 1)).map
      (List.length ∘ fun year => (List.range 12).map fun m => (year, m + 1))) =
      (intRange y1 (y2 + 1)).map (fun _ => (12 : Nat)) :=
    List.map_congr_left (fun a _ => by simp)
  rw [h, sum_map_twelve, length_intRange]

theorem mem_daterange_month {y1 y2 y : Int} {m : Nat} :
    (y, m) ∈ daterange_month y1 y2 ↔ y1 ≤ y ∧ y ≤ y2 ∧ 1 ≤ m ∧ m ≤ 12 := by
  unfold daterange_month
  simp only [List.mem_flatMap, List.mem_map, List.mem_range, mem_intRange, Prod.mk.injEq]
  constructor
  · rintro ⟨year, ⟨ha, hb⟩, k, hk, hy, hm⟩
    omega
  · rintro ⟨h1, h2, h3, h4⟩
    exact ⟨y, ⟨h1, by omega⟩, m - 1, by omega, rfl, by omega⟩

theorem daterange_month_pairwise (y1 y2 : Int) :
    (daterange_month y1 y2).Pairwise chronoLt := by
  unfold daterange_month
  rw [List.pairwise_flatMap]
  constructor
  · intro a ha
    refine (List.pairwise_lt_range _).map _ ?_
    intro x y h
    exact Or.inr ⟨rfl, by omega⟩
  · refine (intRange_pairwise y1 (y2 + 1)).imp ?_
    intro a b hab x hx y hy
    simp only [List.mem_map, List.mem_range] at hx hy
    obtain ⟨k, hk, rfl⟩ := hx
    obtain ⟨j, hj, rfl⟩ := hy
    exact Or.inl hab

theorem chronoLt_ne {p q : Int × Nat} (h : chronoLt p q) : p ≠ q := by
  rintro rfl
  unfold chronoLt at h
  omega

theorem daterange_month_nodup (y1 y2 : Int) : (daterange_month y1 y2).Nodup :=
  (daterange_month_pairwise y1 y2).imp chronoLt_ne

theorem daterange_month_eq_nil (y1 y2 : Int) (h : y2 < y1) :
    daterange_month y1 y2 = [] := by
  unfold daterange_month intRange
  have h0 : (y2 + 1 - y1).toNat = 0 := by omega
  rw [h0]
  rfl

theorem count_one_of_nodup_mem {α : Type} [BEq α] [LawfulBEq α]
    {l : List α} {a : α} (hn : l.Nodup) (h : a ∈ l) : l.count a = 1 := by
  induction l with
  | nil => cases h
  | cons b t ih =>
    rw [List.count_cons]
    rcases List.mem_cons.mp h with rfl | hat
    · have hbt : a ∉ t := (List.nodup_cons.mp hn).1
      rw [List.count_eq_zero.mpr hbt]
      simp
    · have ht : t.Nodup := (List.nodup_cons.mp hn).2
      have hba : ¬ (b == a) = true := by
        intro hb
        exact (List.nodup_cons.mp hn).1 (eq_of_beq hb ▸ hat)
      rw [ih ht hat, if_neg hba]

theorem count_daterange_month {y1 y2 y : Int} {m : Nat}
    (hm : (y, m) ∈ daterange_month y1 y2) :
    (daterange_month y1 y2).count (y, m) = 1 :=
  count_one_of_nodup_mem (daterange_month_nodup y1 y2) hm

/-- C3 (confirmed): for `Y1 ≤ Y2`, `daterange_month Y1 Y2` yields exactly
`12·(Y2−Y1+1)` pairs, pairwise strictly ascending in chronological order,
containing exactly the pairs (year, month) with `Y1 ≤ year ≤ Y2` and
`1 ≤ month ≤ 12`, each exactly once. -/
theorem daterange_month_spec (y1 y2 : Int) (h : y1 ≤ y2) :
    ((daterange_month y1 y2).length : Int) = 12 * (y2 - y1 + 1) ∧
    (daterange_month y1 y2).Pairwise chronoLt ∧
    ∀ (y : Int) (m : Nat),
      ((y, m) ∈ daterange_month y1 y2 ↔ y1 ≤ y ∧ y ≤ y2 ∧ 1 ≤ m ∧ m ≤ 12) ∧
      ((y, m) ∈ daterange_month y1 y2 → (daterange_month y1 y2).count (y, m) = 1) := by
  refine ⟨?_, daterange_month_pairwise y1 y2, fun y m =>
    ⟨mem_daterange_month, fun hm => count_daterange_month hm⟩⟩
  rw [length_daterange_month]
  push_cast
  omega

/-- Witness for C3: the two-year range 2024..2025 has 24 pairs and contains
July 2025. -/
theorem daterange_month_spec_witness :
    ((daterange_month 2024 2025).length : Int) = 12 * (2025 - 2024 + 1) ∧
    (2025, 7) ∈ daterange_month 2024 2025 := by
  have h := daterange_month_spec 2024 2025 (by norm_num)
  exact ⟨h.1, ((h.2.2 2025 7).1).mpr (by norm_num)⟩

/-! ## Timestamp range lemmas -/

theorem lt_numSteps_iff {s e st : Int} (hst : 0 < st) (k : Nat) :
    k < numSteps s e st ↔ s + (k : Int) * st < e := by
  unfold numSteps
  rw [Int.lt_toNat, Int.lt_iff_add_one_le, Int.le_ediv_iff_mul_le hst, add_mul, one_mul]
  constructor <;> intro h <;> linarith

theorem length_dateRangeLeft (s e st : Int) :
    (dateRangeLeft s e st).length = numSteps s e st := by
  unfold dateRangeLeft
  rw [List.length_map, List.length_range]

theorem process_response_success (area : String) (year : Int) (month : Nat)
    (r : Response) (df : DataFrame)
    (h : (process_response area year month r).1 = some df) :
    0 < r.hourly.interval ∧
    ∃ v0 v1 v2 v3 v4 v5 v6 : List Val,
      r.hourly.varData[0]? = some v0 ∧
      r.hourly.varData[1]? = some v1 ∧
      r.hourly.varData[2]? = some v2 ∧
      r.hourly.varData[3]? = some v3 ∧
      r.hourly.varData[4]? = some v4 ∧
      r.hourly.varData[5]? = some v5 ∧
      r.hourly.varData[6]? = some v6 ∧
      v0.length = (dateRangeLeft r.hourly.time r.hourly.timeEnd r.hourly.interval).length ∧
      v1.length = (dateRangeLeft r.hourly.time r.hourly.timeEnd r.hourly.interval).length ∧
      v2.length = (dateRangeLeft r.hourly.time r.hourly.timeEnd r.hourly.interval).length ∧
      v3.length = (dateRangeLeft r.hourly.time r.hourly.timeEnd r.hourly.interval).length ∧
      v4.length = (dateRangeLeft r.hourly.time r.hourly.timeEnd r.hourly.interval).length ∧
      v5.length = (dateRangeLeft r.hourly.time r.hourly.timeEnd r.hourly.interval).length ∧
      v6.length = (dateRangeLeft r.hourly.time r.hourly.timeEnd r.hourly.interval).length ∧
      df = [("time", (dateRangeLeft r.hourly.time r.hourly.timeEnd r.hourly.interval).map Cell.time),
            ("temperature_2m", v0.map Cell.num),
            ("relative_humidity_2m", v1.map Cell.num),
            ("precipitation", v2.map Cell.num),
            ("rain", v3.map Cell.num),
            ("snowfall", v4.map Cell.num),
            ("windspeed_10m", v5.map Cell.num),
            ("winddirection_10m", v6.map Cell.num),
            ("area", List.replicate (dateRangeLeft r.hourly.time r.hourly.timeEnd r.hourly.interval).length (Cell.str area))] := by
  unfold process_response at h
  dsimp only at h
  split at h
  · simp at h
  · split at h
    · split at h
      · next hlen =>
        rename_i v0 v1 v2 v3 v4 v5 v6 hv0 hv1 hv2 hv3 hv4 hv5 hv6
        obtain ⟨l1, l2, l3, l4, l5, l6, l7⟩ := hlen
        simp only [Option.some.injEq] at h
        subst h
        exact ⟨by omega, v0, v1, v2, v3, v4, v5, v6, hv0, hv1, hv2, hv3, hv4, hv5, hv6,
          l1, l2, l3, l4, l5, l6, l7, rfl⟩
      · simp at h
    · simp at h

/-- C4 (confirmed): a successfully processed non-null response yields a
table of exactly 9 columns whose row count equals the number of steps of
the half-open evenly spaced timestamp sequence from the hourly start
(inclusive) to the end (exclusive) with step = interval (`k` is a row
index iff `start + k·interval < end`); the first column is that timestamp
sequence and the last is the constant `area` label column. -/
theorem process_data_table_shape (area : String) (year : Int) (month : Nat)
    (r : Response) (df : DataFrame)
    (h : (process_data area year month (some r)).1 = some df) :
    0 < r.hourly.interval ∧
    df.length = 9 ∧
    nRows df = numSteps r.hourly.time r.hourly.timeEnd r.hourly.interval ∧
    (∀ k : Nat, k < nRows df ↔
      r.hourly.time + (k : Int) * r.hourly.interval < r.hourly.timeEnd) ∧
    df[0]? = some ("time",
      (dateRangeLeft r.hourly.time r.hourly.timeEnd r.hourly.interval).map Cell.time) ∧
    df[8]? = some ("area",
      List.replicate (numSteps r.hourly.time r.hourly.timeEnd r.hourly.interval)
        (Cell.str area)) := by
  have h' : (process_response area year month r).1 = some df := h
  obtain ⟨hst, v0, v1, v2, v3, v4, v5, v6, hv0, hv1, hv2, hv3, hv4, hv5, hv6,
    l1, l2, l3, l4, l5, l6, l7, hdf⟩ := process_response_success area year month r df h'
  subst hdf
  have hn : nRows [("time",
      (dateRangeLeft r.hourly.time r.hourly.timeEnd r.hourly.interval).map Cell.time),
      ("temperature_2m", v0.map Cell.num),
      ("relative_humidity_2m", v1.map Cell.num),
      ("precipitation", v2.map Cell.num),
      ("rain", v3.map Cell.num),
      ("snowfall", v4.map Cell.num),
      ("windspeed_10m", v5.map Cell.num),
      ("winddirection_10m", v6.map Cell.num),
      ("area", List.replicate
        (dateRangeLeft r.hourly.time r.hourly.timeEnd r.hourly.interval).length
        (Cell.str area))] =
      numSteps r.hourly.time r.hourly.timeEnd r.hourly.interval := by
    simp [nRows, length_dateRangeLeft]
  refine ⟨hst, rfl, hn, ?_, rfl, ?_⟩
  · intro k
    rw [hn]
    exact lt_numSteps_iff hst k
  · rw [← length_dateRangeLeft]
    rfl

/-- C1 (confirmed): the request's hourly directive is the comma-join of
the seven configured variable names, in list order, and for every
successfully processed response the (i+1)-th column of the produced table
(after `time`) is named by the i-th configured variable name and holds the
values of hourly variable index i. -/
theorem variable_order_invariant (lat lon : Val) (sd ed : Datetime)
    (area : String) (year : Int) (month : Nat) (r : Response) (df : DataFrame)
    (h : (process_data area year month (some r)).1 = some df) :
    (buildParams lat lon sd ed).hourly =
      String.intercalate "," OPENMETEO_HOURLY_VARIABLES ∧
    String.intercalate "," OPENMETEO_HOURLY_VARIABLES =
      "temperature_2m,relative_humidity_2m,precipitation,rain,snowfall,windspeed_10m,winddirection_10m" ∧
    ∀ i : Nat, i < 7 →
      (df[i + 1]?).map Prod.fst = OPENMETEO_HOURLY_VARIABLES[i]? ∧
      (df[i + 1]?).map Prod.snd = (r.hourly.varData[i]?).map (List.map Cell.num) := by
  have h' : (process_response area year month r).1 = some df := h
  obtain ⟨hst, v0, v1, v2, v3, v4, v5, v6, hv0, hv1, hv2, hv3, hv4, hv5, hv6,
    l1, l2, l3, l4, l5, l6, l7, hdf⟩ := process_response_success area year month r df h'
  subst hdf
  refine ⟨rfl, rfl, ?_⟩
  intro i hi
  interval_cases i
  · exact ⟨rfl, by rw [hv0]; rfl⟩
  · exact ⟨rfl, by rw [hv1]; rfl⟩
  · exact ⟨rfl, by rw [hv2]; rfl⟩
  · exact ⟨rfl, by rw [hv3]; rfl⟩
  · exact ⟨rfl, by rw [hv4]; rfl⟩
  · exact ⟨rfl, by rw [hv5]; rfl⟩
  · exact ⟨rfl, by rw [hv6]; rfl⟩

/-- C5 (confirmed): `process_data` is total (the embedding returns a
value on every input, modelling that every exception of the `try` body is
caught); a null response logs the no-data message and returns null, every
failing extraction logs the error with area/year/month context and
returns null, and a length mismatch between a variable and the timestamp
sequence is such a failure. -/
theorem process_data_error_handling (area : String) (year : Int) (month : Nat) :
    process_data area year month none =
      (none, [LogEvent.noDataArea area year month]) ∧
    ∀ r : Response,
      ((process_data area year month (some r)).1 = none →
        LogEvent.processError area year month ∈ (process_data area year month (some r)).2) ∧
      (∀ (i : Nat) (v : List Val), i < 7 → r.hourly.varData[i]? = some v →
        v.length ≠ (dateRangeLeft r.hourly.time r.hourly.timeEnd r.hourly.interval).length →
        (process_data area year month (some r)).1 = none) := by
  refine ⟨rfl, fun r => ⟨?_, ?_⟩⟩
  · show (process_response area year month r).1 = none →
      LogEvent.processError area year month ∈ (process_response area year month r).2
    unfold process_response
    dsimp only
    split
    · intro _; simp
    · split
      · split
        · intro hno; simp at hno
        · intro _; simp
      · intro _; simp
  · intro i v hi hv hne
    show (process_response area year month r).1 = none
    unfold process_response
    dsimp only
    split
    · rfl
    · split
      · split
        · next hlen =>
          exfalso
          rename_i v0 v1 v2 v3 v4 v5 v6 hv0 hv1 hv2 hv3 hv4 hv5 hv6
          obtain ⟨w1, w2, w3, w4, w5, w6, w7⟩ := hlen
          interval_cases i
          · rw [hv0] at hv; cases hv; exact hne w1
          · rw [hv1] at hv; cases hv; exact hne w2
          · rw [hv2] at hv; cases hv; exact hne w3
          · rw [hv3] at hv; cases hv; exact hne w4
          · rw [hv4] at hv; cases hv; exact hne w5
          · rw [hv5] at hv; cases hv; exact hne w6
          · rw [hv6] at hv; cases hv; exact hne w7
        · rfl
      · rfl

/-- Witness for C4: the two-step fixture response yields a 9-column,
2-row frame. -/
theorem process_data_table_shape_witness :
    (process_data "A" 2024 1 (some rW)).1 = some dfW ∧
    dfW.length = 9 ∧ nRows dfW = 2 := by
  have h : (process_data "A" 2024 1 (some rW)).1 = some dfW := rfl
  have hs := process_data_table_shape "A" 2024 1 rW dfW h
  refine ⟨h, hs.2.1, ?_⟩
  rw [hs.2.2.1]
  rfl

/-- Witness for C1: on the fixture response the first variable column is
`temperature_2m` and carries hourly variable index 0. -/
theorem variable_order_invariant_witness :
    (buildParams 1 2 ⟨2024, 1, 1⟩ ⟨2024, 1, 31⟩).hourly =
      "temperature_2m,relative_humidity_2m,precipitation,rain,snowfall,windspeed_10m,winddirection_10m" ∧
    (dfW[1]?).map Prod.fst = OPENMETEO_HOURLY_VARIABLES[0]? ∧
    (dfW[1]?).map Prod.snd = (rW.hourly.varData[0]?).map (List.map Cell.num) := by
  have h : (process_data "A" 2024 1 (some rW)).1 = some dfW := rfl
  have hs := variable_order_invariant 1 2 ⟨2024, 1, 1⟩ ⟨2024, 1, 31⟩
    "A" 2024 1 rW dfW h
  have h7 := hs.2.2 0 (by norm_num)
  exact ⟨hs.1.trans hs.2.1, h7.1, h7.2⟩

/-- Witness for C5: a null response returns null with the no-data log, and
the fixture response whose seventh variable is one value short is rejected
with a null result. -/
theorem process_data_error_handling_witness :
    process_data "A" 2024 1 none = (none, [LogEvent.noDataArea "A" 2024 1]) ∧
    (process_data "A" 2024 1 (some rBad)).1 = none := by
  have h := process_data_error_handling "A" 2024 1
  refine ⟨h.1, ?_⟩
  exact (h.2 rBad).2 6 [13] (by norm_num) rfl (by decide)

/-! ## Weather client adapter lemmas -/

/-- C6 (confirmed): `fetch_open_meteo_data` is total in the embedding
(every exception of the `weather_api` call is caught): an empty result set
is reported and yields null, a `TypeError` and any other exception are
reported with the coordinates and yield null, and a nonempty result list
yields its first response.  The failure never escapes the call, so it is
per-call only (the driver theorems show a run continues past it). -/
theorem fetch_error_handling (api : Api) (lat lon : Val) (sd ed : Datetime) :
    (api (buildParams lat lon sd ed) = ApiOutcome.ok [] →
      fetch_open_meteo_data api lat lon sd ed =
        (none, [buildParams lat lon sd ed], [LogEvent.noResponse lat lon])) ∧
    (api (buildParams lat lon sd ed) = ApiOutcome.typeError →
      fetch_open_meteo_data api lat lon sd ed =
        (none, [buildParams lat lon sd ed], [LogEvent.fetchTypeError lat lon])) ∧
    (api (buildParams lat lon sd ed) = ApiOutcome.exn →
      fetch_open_meteo_data api lat lon sd ed =
        (none, [buildParams lat lon sd ed], [LogEvent.fetchError lat lon])) ∧
    (∀ (r : Response) (rs : List Response),
      api (buildParams lat lon sd ed) = ApiOutcome.ok (r :: rs) →
      fetch_open_meteo_data api lat lon sd ed =
        (some r, [buildParams lat lon sd ed], [])) := by
  refine ⟨?_, ?_, ?_, ?_⟩
  · intro h
    unfold fetch_open_meteo_data
    dsimp only
    rw [h]
  · intro h
    unfold fetch_open_meteo_data
    dsimp only
    rw [h]
  · intro h
    unfold fetch_open_meteo_data
    dsimp only
    rw [h]
  · intro r rs h
    unfold fetch_open_meteo_data
    dsimp only
    rw [h]

/-- Witness for C6: a throwing upstream and an empty-result upstream both
yield null with the matching report. -/
theorem fetch_error_handling_witness :
    fetch_open_meteo_data (fun _ => ApiOutcome.exn) 1 2 ⟨2024, 1, 1⟩ ⟨2024, 1, 31⟩ =
      (none, [buildParams 1 2 ⟨2024, 1, 1⟩ ⟨2024, 1, 31⟩], [LogEvent.fetchError 1 2]) ∧
    fetch_open_meteo_data (fun _ => ApiOutcome.ok []) 1 2 ⟨2024, 1, 1⟩ ⟨2024, 1, 31⟩ =
      (none, [buildParams 1 2 ⟨2024, 1, 1⟩ ⟨2024, 1, 31⟩], [LogEvent.noResponse 1 2]) := by
  constructor
  · exact (fetch_error_handling (fun _ => ApiOutcome.exn) 1 2 ⟨2024, 1, 1⟩ ⟨2024, 1, 31⟩).2.2.1 rfl
  · exact (fetch_error_handling (fun _ => ApiOutcome.ok []) 1 2 ⟨2024, 1, 1⟩ ⟨2024, 1, 31⟩).1 rfl

/-! ## Driver lemmas -/

theorem runMonths_some_months (env : Env) (areas : List AreaRow) :
    ∀ (ms : List (Int × Nat)) (r : RunResult),
      runMonths env areas ms = some r → r.months = ms := by
  intro ms
  induction ms with
  | nil =>
    intro r h
    simp only [runMonths] at h
    cases h
    rfl
  | cons ym rest ih =>
    obtain ⟨y, m⟩ := ym
    intro r h
    simp only [runMonths] at h
    cases hma : monthAreas env.api y m areas with
    | none => rw [hma] at h; simp at h
    | some t =>
      obtain ⟨dfs, reqs, logs1⟩ := t
      rw [hma] at h
      simp only [Option.bind_eq_bind, Option.some_bind] at h
      cases hrest : runMonths env areas rest with
      | none => rw [hrest] at h; simp at h
      | some rr =>
        rw [hrest] at h
        simp only [Option.some_bind] at h
        cases h
        simp [ih rr hrest]

theorem monthAreas_all_none (api : Api) (y : Int) (m : Nat) :
    ∀ (areas : List AreaRow) (dfs : List DataFrame) (reqs : List OMParams)
      (logs : List LogEvent),
      monthAreas api y m areas = some (dfs, reqs, logs) →
      (∀ row ∈ areas, ∀ t, processArea api y m row = some t → t.1 = none) →
      dfs = [] := by
  intro areas
  induction areas with
  | nil =>
    intro dfs reqs logs h _
    simp only [monthAreas] at h
    cases h
    rfl
  | cons row rest ih =>
    intro dfs reqs logs h hall
    simp only [monthAreas] at h
    cases hpa : processArea api y m row with
    | none => rw [hpa] at h; simp at h
    | some t =>
      obtain ⟨df?, reqs1, logs1⟩ := t
      rw [hpa] at h
      simp only [Option.bind_eq_bind, Option.some_bind] at h
      cases hrest : monthAreas api y m rest with
      | none => rw [hrest] at h; simp at h
      | some t2 =>
        obtain ⟨dfs2, reqs2, logs2⟩ := t2
        rw [hrest] at h
        simp only [Option.some_bind] at h
        cases h
        have h1 : df? = none := hall row (by simp) (df?, reqs1, logs1) hpa
        have h2 : dfs2 = [] :=
          ih dfs2 reqs2 logs2 hrest (fun r hr t ht => hall r (by simp [hr]) t ht)
        rw [h1, h2]
        rfl

theorem runMonths_monthAreas_some (env : Env) (areas : List AreaRow) :
    ∀ (ms : List (Int × Nat)) (r : RunResult) (y : Int) (m : Nat),
      runMonths env areas ms = some r → (y, m) ∈ ms →
      ∃ t, monthAreas env.api y m areas = some t := by
  intro ms
  induction ms with
  | nil => intro r y m _ hmem; cases hmem
  | cons ym rest ih =>
    obtain ⟨y0, m0⟩ := ym
    intro r y m h hmem
    simp only [runMonths] at h
    cases hma : monthAreas env.api y0 m0 areas with
    | none => rw [hma] at h; simp at h
    | some t =>
      obtain ⟨dfs, reqs, logs1⟩ := t
      rw [hma] at h
      simp only [Option.bind_eq_bind, Option.some_bind] at h
      cases hrest : runMonths env areas rest with
      | none => rw [hrest] at h; simp at h
      | some rr =>
        rcases List.mem_cons.mp hmem with heq | htail
        · cases heq
          exact ⟨_, hma⟩
        · exact ih rr y m hrest htail

theorem runMonths_noDataMonth (env : Env) (areas : List AreaRow) :
    ∀ (ms : List (Int × Nat)) (r : RunResult) (y : Int) (m : Nat)
      (reqs : List OMParams) (logs : List LogEvent),
      runMonths env areas ms = some r → (y, m) ∈ ms →
      monthAreas env.api y m areas = some ([], reqs, logs) →
      LogEvent.noDataMonth y m ∈ r.logs := by
  intro ms
  induction ms with
  | nil => intro r y m reqs logs _ hmem _; cases hmem
  | cons ym rest ih =>
    obtain ⟨y0, m0⟩ := ym
    intro r y m reqs logs h hmem hma0
    simp only [runMonths] at h
    cases hma : monthAreas env.api y0 m0 areas with
    | none => rw [hma] at h; simp at h
    | some t =>
      obtain ⟨dfs, reqs1, logs1⟩ := t
      rw [hma] at h
      simp only [Option.bind_eq_bind, Option.some_bind] at h
      cases hrest : runMonths env areas rest with
      | none => rw [hrest] at h; simp at h
      | some rr =>
        rw [hrest] at h
        simp only [Option.some_bind] at h
        cases h
        rcases List.mem_cons.mp hmem with heq | htail
        · cases heq
          rw [hma0] at hma
          cases hma
          simp [writeMonth]
        · have := ih rr y m reqs logs hrest htail hma0
          simp [this]

theorem runMonths_writes_mem (env : Env) (areas : List AreaRow) :
    ∀ (ms : List (Int × Nat)) (r : RunResult),
      runMonths env areas ms = some r →
      ∀ w ∈ r.writes, w.1 ∈ ms ∧
        ∃ dfs reqs logs,
          monthAreas env.api w.1.1 w.1.2 areas = some (dfs, reqs, logs) ∧
          dfs ≠ [] ∧ env.writeOk w.1.1 w.1.2 = true ∧
          w.2 = (filepath w.1.1 w.1.2, concatDF dfs) := by
  intro ms
  induction ms with
  | nil =>
    intro r h w hw
    simp only [runMonths] at h
    cases h
    cases hw
  | cons ym rest ih =>
    obtain ⟨y0, m0⟩ := ym
    intro r h w hw
    simp only [runMonths] at h
    cases hma : monthAreas env.api y0 m0 areas with
    | none => rw [hma] at h; simp at h
    | some t =>
      obtain ⟨dfs, reqs, logs1⟩ := t
      rw [hma] at h
      simp only [Option.bind_eq_bind, Option.some_bind] at h
      cases hrest : runMonths env areas rest with
      | none => rw [hrest] at h; simp at h
      | some rr =>
        rw [hrest] at h
        simp only [Option.some_bind] at h
        cases h
        rcases List.mem_append.mp hw with h1 | h2
        · cases dfs with
          | nil => simp [writeMonth] at h1
          | cons d ds =>
            by_cases hok : env.writeOk y0 m0
            · simp only [writeMonth, hok, if_true] at h1
              rcases List.mem_singleton.mp h1 with rfl
              exact ⟨List.mem_cons_self _ _,
                d :: ds, reqs, logs1, hma, by simp, hok, rfl⟩
            · simp [writeMonth, hok] at h1
        · obtain ⟨hmem, hrestw⟩ := ih rr hrest w h2
          exact ⟨List.mem_cons_of_mem _ hmem, hrestw⟩

theorem runMonths_write_of (env : Env) (areas : List AreaRow) :
    ∀ (ms : List (Int × Nat)) (r : RunResult) (y : Int) (m : Nat)
      (dfs : List DataFrame) (reqs : List OMParams) (logs : List LogEvent),
      runMonths env areas ms = some r → (y, m) ∈ ms →
      monthAreas env.api y m areas = some (dfs, reqs, logs) →
      dfs ≠ [] → env.writeOk y m = true →
      ((y, m), filepath y m, concatDF dfs) ∈ r.writes := by
  intro ms
  induction ms with
  | nil => intro r y m dfs reqs logs _ hmem; cases hmem
  | cons ym rest ih =>
    obtain ⟨y0, m0⟩ := ym
    intro r y m dfs reqs logs h hmem hma0 hne hok
    simp only [runMonths] at h
    cases hma : monthAreas env.api y0 m0 areas with
    | none => rw [hma] at h; simp at h
    | some t =>
      obtain ⟨dfs1, reqs1, logs1⟩ := t
      rw [hma] at h
      simp only [Option.bind_eq_bind, Option.some_bind] at h
      cases hrest : runMonths env areas rest with
      | none => rw [hrest] at h; simp at h
      | some rr =>
        rw [hrest] at h
        simp only [Option.some_bind] at h
        cases h
        rcases List.mem_cons.mp hmem with heq | htail
        · cases heq
          rw [hma0] at hma
          cases hma
          refine List.mem_append.mpr (Or.inl ?_)
          cases dfs with
          | nil => exact absurd rfl hne
          | cons d ds => simp [writeMonth, hok]
        · exact List.mem_append.mpr (Or.inr
            (ih rr y m dfs reqs logs hrest htail hma0 hne hok))

theorem daysInMonth_pos (y : Int) (m : Nat) (hm1 : 1 ≤ m) (hm2 : m ≤ 12) :
    1 ≤ daysInMonth y m := by
  rw [daysInMonth_eq_gregorianMonthLength y m hm1 hm2]
  exact gregorianMonthLength_pos y m

theorem mkDatetime_first (y : Int) (m : Nat)
    (hy1 : 1 ≤ y) (hy2 : y ≤ 9999) (hm1 : 1 ≤ m) (hm2 : m ≤ 12) :
    mkDatetime y m 1 = some ⟨y, m, 1⟩ := by
  unfold mkDatetime
  rw [if_pos ⟨hy1, hy2, hm1, hm2, le_refl 1, daysInMonth_pos y m hm1 hm2⟩]

theorem processArea_isSome (api : Api) (y : Int) (m : Nat) (row : AreaRow)
    (hy1 : 1 ≤ y) (hy2 : y ≤ 9999) (hm1 : 1 ≤ m) (hm2 : m ≤ 12)
    (ha : row.area ≠ none) (hlat : row.latitude ≠ none)
    (hlon : row.longitude ≠ none) :
    ∃ t, processArea api y m row = some t := by
  obtain ⟨a, ha'⟩ := Option.ne_none_iff_exists'.mp ha
  obtain ⟨la, hla'⟩ := Option.ne_none_iff_exists'.mp hlat
  obtain ⟨lo, hlo'⟩ := Option.ne_none_iff_exists'.mp hlon
  unfold processArea
  rw [ha', hla', hlo', mkDatetime_first y m hy1 hy2 hm1 hm2,
    get_end_date_eq y m hy1 hy2 hm1 hm2]
  exact ⟨_, rfl⟩

theorem monthAreas_isSome (api : Api) (y : Int) (m : Nat)
    (hy1 : 1 ≤ y) (hy2 : y ≤ 9999) (hm1 : 1 ≤ m) (hm2 : m ≤ 12) :
    ∀ areas : List AreaRow,
      (∀ row ∈ areas,
        row.area ≠ none ∧ row.latitude ≠ none ∧ row.longitude ≠ none) →
      ∃ t, monthAreas api y m areas = some t := by
  intro areas
  induction areas with
  | nil => intro _; exact ⟨_, rfl⟩
  | cons row rest ih =>
    intro hall
    obtain ⟨⟨df?, reqs1, logs1⟩, ht1⟩ := processArea_isSome api y m row
      hy1 hy2 hm1 hm2 (hall row (by simp)).1 (hall row (by simp)).2.1
      (hall row (by simp)).2.2
    obtain ⟨⟨dfs2, reqs2, logs2⟩, ht2⟩ := ih (fun r hr => hall r (by simp [hr]))
    refine ⟨(df?.toList ++ dfs2, reqs1 ++ reqs2, logs1 ++ logs2), ?_⟩
    simp only [monthAreas, ht1, ht2, Option.bind_eq_bind, Option.some_bind]

theorem runMonths_isSome (env : Env) (areas : List AreaRow)
    (hall : ∀ row ∈ areas,
      row.area ≠ none ∧ row.latitude ≠ none ∧ row.longitude ≠ none) :
    ∀ ms : List (Int × Nat),
      (∀ p ∈ ms, 1 ≤ p.1 ∧ p.1 ≤ 9999 ∧ 1 ≤ p.2 ∧ p.2 ≤ 12) →
      ∃ r, runMonths env areas ms = some r := by
  intro ms
  induction ms with
  | nil => intro _; exact ⟨_, rfl⟩
  | cons ym rest ih =>
    obtain ⟨y, m⟩ := ym
    intro hms
    obtain ⟨hy1, hy2, hm1, hm2⟩ := hms (y, m) (by simp)
    obtain ⟨⟨dfs, reqs, logs1⟩, hma⟩ :=
      monthAreas_isSome env.api y m hy1 hy2 hm1 hm2 areas hall
    obtain ⟨rr, hrest⟩ := ih (fun p hp => hms p (by simp [hp]))
    refine ⟨⟨reqs ++ rr.fetches,
      (writeMonth env.writeOk y m dfs).1 ++ rr.writes,
      (y, m) :: rr.months,
      LogEvent.monthStart y m :: logs1 ++ (writeMonth env.writeOk y m dfs).2
        ++ rr.logs⟩, ?_⟩
    simp only [runMonths, hma, hrest, Option.bind_eq_bind, Option.some_bind]

theorem process_response_stdFrame (area : String) (year : Int) (month : Nat)
    (r : Response) (df : DataFrame)
    (h : (process_response area year month r).1 = some df) : stdFrame df := by
  obtain ⟨hst, v0, v1, v2, v3, v4, v5, v6, hv0, hv1, hv2, hv3, hv4, hv5, hv6,
    l1, l2, l3, l4, l5, l6, l7, hdf⟩ :=
    process_response_success area year month r df h
  subst hdf
  constructor
  · rfl
  · intro c hc
    simp only [List.mem_cons, List.not_mem_nil, or_false] at hc
    rcases hc with rfl | rfl | rfl | rfl | rfl | rfl | rfl | rfl | rfl <;>
      simp [nRows, l1, l2, l3, l4, l5, l6, l7]

theorem processArea_stdFrame (api : Api) (y : Int) (m : Nat) (row : AreaRow)
    (t : Option DataFrame × List OMParams × List LogEvent)
    (h : processArea api y m row = some t) :
    ∀ df : DataFrame, t.1 = some df → stdFrame df := by
  intro df hdf
  unfold processArea at h
  split at h
  · split at h
    · next sd ed hsd hed =>
      cases h
      dsimp only at hdf
      cases hresp : (fetch_open_meteo_data api _ _ sd ed).1 with
      | none =>
        rw [hresp] at hdf
        simp [process_data] at hdf
      | some resp =>
        rw [hresp] at hdf
        exact process_response_stdFrame _ y m resp df hdf
    · cases h
  · cases h

theorem monthAreas_stdFrame (api : Api) (y : Int) (m : Nat) :
    ∀ (areas : List AreaRow) (dfs : List DataFrame) (reqs : List OMParams)
      (logs : List LogEvent),
      monthAreas api y m areas = some (dfs, reqs, logs) →
      ∀ df ∈ dfs, stdFrame df := by
  intro areas
  induction areas with
  | nil =>
    intro dfs reqs logs h df hdf
    simp only [monthAreas] at h
    cases h
    cases hdf
  | cons row rest ih =>
    intro dfs reqs logs h df hdf
    simp only [monthAreas] at h
    cases hpa : processArea api y m row with
    | none => rw [hpa] at h; simp at h
    | some t =>
      obtain ⟨df?, reqs1, logs1⟩ := t
      rw [hpa] at h
      simp only [Option.bind_eq_bind, Option.some_bind] at h
      cases hrest : monthAreas api y m rest with
      | none => rw [hrest] at h; simp at h
      | some t2 =>
        obtain ⟨dfs2, reqs2, logs2⟩ := t2
        rw [hrest] at h
        simp only [Option.some_bind] at h
        cases h
        rcases List.mem_append.mp hdf with h1 | h2
        · cases df? with
          | none => cases h1
          | some df0 =>
            rcases List.mem_singleton.mp h1 with rfl
            exact processArea_stdFrame api y m row _ hpa _ rfl
        · exact ih dfs2 reqs2 logs2 hrest df h2

theorem concatDF_col (dfs : List DataFrame) (name : String) (col : List Cell)
    (h : (name, col) ∈ concatDF dfs) :
    col = (dfs.map (fun df => colValues df name)).flatten := by
  cases dfs with
  | nil => cases h
  | cons first rest =>
    simp only [concatDF, List.mem_map, Prod.mk.injEq] at h
    obtain ⟨c, hc, h1, h2⟩ := h
    subst h1
    exact h2.symm

theorem stdFrame_colValues_time (df : DataFrame) (h : stdFrame df) :
    (colValues df "time").length = nRows df := by
  obtain ⟨hmap, _⟩ := h
  cases df with
  | nil => simp [stdCols] at hmap
  | cons c cs =>
    have hc1 : c.1 = "time" := by
      simp only [List.map_cons, stdCols] at hmap
      exact (List.cons.injEq _ _ _ _ ▸ hmap).1
    unfold colValues
    rw [List.find?_cons_of_pos _ (by simp [hc1])]
    rfl

theorem concatDF_mapfst (dfs : List DataFrame) (first : DataFrame)
    (rest : List DataFrame) (hd : dfs = first :: rest)
    (hstd : stdFrame first) :
    (concatDF dfs).map Prod.fst = stdCols := by
  subst hd
  simp only [concatDF, List.map_map]
  have : (Prod.fst ∘ fun c : String × List Cell =>
      (c.1, ((first :: rest).map (fun df => colValues df c.1)).flatten)) =
      Prod.fst := by
    funext c
    rfl
  rw [this]
  exact hstd.1

theorem nRows_concatDF (dfs : List DataFrame) (hne : dfs ≠ [])
    (hstd : ∀ df ∈ dfs, stdFrame df) :
    nRows (concatDF dfs) = (dfs.map nRows).sum := by
  cases dfs with
  | nil => cases hne rfl
  | cons first rest =>
    obtain ⟨hmap, _⟩ := hstd first (by simp)
    cases first with
    | nil => simp [stdCols] at hmap
    | cons c cs =>
      have hc1 : c.1 = "time" := by
        simp only [List.map_cons, stdCols] at hmap
        exact (List.cons.injEq _ _ _ _ ▸ hmap).1
      have hcong : ((c :: cs) :: rest).map
          (List.length ∘ fun df => colValues df c.1) =
          ((c :: cs) :: rest).map nRows := by
        refine List.map_congr_left ?_
        intro df hdf
        have := stdFrame_colValues_time df (hstd df hdf)
        simp only [Function.comp_apply, hc1]
        exact this
      have h0 : nRows (concatDF ((c :: cs) :: rest)) =
          ((((c :: cs) :: rest)).map (fun df => colValues df c.1)).flatten.length :=
        rfl
      rw [h0, List.length_flatten, List.map_map, hcong]

/-! ## Driver claim theorems -/

/-- C7 (confirmed): if every area of a month fails (or the registry is
empty), then no write is performed for that month, the month-level no-data
condition is reported, and the run still processes every month of the
range. -/
theorem no_data_month_not_written (y1 y2 : Int) (env : Env) (areas : List AreaRow)
    (hr : env.readAreas = Except.ok areas) (res : RunResult)
    (hrun : mainWith y1 y2 env = some res) (y : Int) (m : Nat)
    (hmem : (y, m) ∈ daterange_month y1 y2)
    (hfail : ∀ row ∈ areas, ∀ t, processArea env.api y m row = some t → t.1 = none) :
    (∀ w ∈ res.writes, w.1 ≠ (y, m)) ∧
    LogEvent.noDataMonth y m ∈ res.logs ∧
    res.months = daterange_month y1 y2 := by
  have hrm : runMonths env areas (daterange_month y1 y2) = some res := by
    unfold mainWith at hrun
    rw [hr] at hrun
    exact hrun
  obtain ⟨⟨dfs, reqs, logs⟩, hma⟩ :=
    runMonths_monthAreas_some env areas _ res y m hrm hmem
  have hdfs : dfs = [] := monthAreas_all_none env.api y m areas dfs reqs logs hma hfail
  subst hdfs
  refine ⟨?_, runMonths_noDataMonth env areas _ res y m reqs logs hrm hmem hma,
    runMonths_some_months env areas _ res hrm⟩
  intro w hw heq
  obtain ⟨hwmem, dfs', reqs', logs', hma', hne', hok', hweq⟩ :=
    runMonths_writes_mem env areas _ res hrm w hw
  rw [heq] at hma'
  dsimp only at hma'
  rw [hma] at hma'
  cases hma'
  exact hne' rfl

/-- Witness for C7: with one area whose every fetch raises, month (1, 3)
is never written and its no-data message is logged. -/
theorem no_data_month_not_written_witness :
    (∀ w ∈ resW7.writes, w.1 ≠ ((1 : Int), (3 : Nat))) ∧
    LogEvent.noDataMonth 1 3 ∈ resW7.logs := by
  have hrun : mainWith 1 1 envW7 = some resW7 := rfl
  have hfail : ∀ row ∈ [rowGood], ∀ t,
      processArea envW7.api 1 3 row = some t → t.1 = none := by
    intro row hrow t ht
    have hrow' : row = rowGood := by simpa using hrow
    subst hrow'
    have hmap : (processArea envW7.api 1 3 rowGood).map (fun t => t.1) =
        some none := rfl
    rw [ht] at hmap
    simpa using hmap
  have h := no_data_month_not_written 1 1 envW7 [rowGood] rfl resW7 hrun 1 3
    (by decide) hfail
  exact ⟨h.1, h.2.1⟩

/-- C8 (confirmed): a month with a nonempty collected frame list and a
successful write stores, at the deterministic path
`weather_data/open_meteo_<year>_<zero-padded month>.csv`, the
order-preserving concatenation of the per-area frames: the schema is kept,
the row count is the sum of the per-area row counts, and every column is
the concatenation of the per-area columns in collection (registry
iteration) order, so all rows of an earlier area precede those of a later
one and rows within an area keep their order. -/
theorem month_write_aggregation (y1 y2 : Int) (env : Env) (areas : List AreaRow)
    (hr : env.readAreas = Except.ok areas) (res : RunResult)
    (hrun : mainWith y1 y2 env = some res) (y : Int) (m : Nat)
    (hmem : (y, m) ∈ daterange_month y1 y2)
    (dfs : List DataFrame) (reqs : List OMParams) (logs : List LogEvent)
    (hma : monthAreas env.api y m areas = some (dfs, reqs, logs))
    (hne : dfs ≠ []) (hok : env.writeOk y m = true) :
    ((y, m), filepath y m, concatDF dfs) ∈ res.writes ∧
    filepath y m =
      "weather_data/" ++ "open_meteo_" ++ toString y ++ "_" ++ pad2 m ++ ".csv" ∧
    (concatDF dfs).map Prod.fst = stdCols ∧
    nRows (concatDF dfs) = (dfs.map nRows).sum ∧
    (∀ (name : String) (col : List Cell), (name, col) ∈ concatDF dfs →
      col = (dfs.map (fun df => colValues df name)).flatten) := by
  have hrm : runMonths env areas (daterange_month y1 y2) = some res := by
    unfold mainWith at hrun
    rw [hr] at hrun
    exact hrun
  have hstd : ∀ df ∈ dfs, stdFrame df :=
    monthAreas_stdFrame env.api y m areas dfs reqs logs hma
  refine ⟨runMonths_write_of env areas _ res y m dfs reqs logs hrm hmem hma hne hok,
    ?_, ?_, nRows_concatDF dfs hne hstd,
    fun name col hcol => concatDF_col dfs name col hcol⟩
  · unfold filepath OUTPUT_DIR
    simp [String.append_assoc]
  · cases dfs with
    | nil => cases hne rfl
    | cons first rest =>
      exact concatDF_mapfst (first :: rest) first rest rfl (hstd first (by simp))

/-- Witness for C8: two areas of two hourly rows each aggregate to one
written frame of 2 + 2 rows. -/
theorem month_write_aggregation_witness :
    ((1, 1), filepath 1 1, concatDF tripleW8.1) ∈ resW8.writes ∧
    nRows (concatDF tripleW8.1) = (tripleW8.1.map nRows).sum := by
  have hrun : mainWith 1 1 envW8 = some resW8 := rfl
  have hma : monthAreas envW8.api 1 1 [rowGood, rowGoodB] =
      some (tripleW8.1, tripleW8.2.1, tripleW8.2.2) := rfl
  have h := month_write_aggregation 1 1 envW8 [rowGood, rowGoodB] rfl resW8 hrun
    1 1 (by decide) tripleW8.1 tripleW8.2.1 tripleW8.2.2 hma (by decide) rfl
  exact ⟨h.1, h.2.2.2.1⟩

/-- C9 (corrected), counterexample: a registry file that reads
successfully but lacks the required columns makes the driver raise an
uncaught `KeyError` at `row['area']` (source line 153) — an exception
escapes although the registry was read successfully, against the claim's
"regardless of its contents". -/
theorem main_missing_column_crash :
    badEnv.readAreas =
      Except.ok [{ area := none, latitude := none, longitude := none }] ∧
    main badEnv = none :=
  ⟨rfl, rfl⟩

/-- C9 (corrected): registry-load failure aborts the run at once with a
reported error, no fetch and no write; and for every run whose registry is
read successfully *and provides the area/latitude/longitude columns*, no
exception escapes the driver and every month of the configured range is
processed to completion, whatever the api, the responses and the write
failures do. -/
theorem driver_error_policy :
    (∀ env : Env, env.readAreas = Except.error () →
      main env = some ⟨[], [], [], [LogEvent.readError]⟩) ∧
    (∀ (env : Env) (areas : List AreaRow), env.readAreas = Except.ok areas →
      (∀ row ∈ areas,
        row.area ≠ none ∧ row.latitude ≠ none ∧ row.longitude ≠ none) →
      ∃ r, main env = some r ∧ r.months = daterange_month START_YEAR END_YEAR) := by
  constructor
  · intro env h
    unfold main mainWith
    rw [h]
  · intro env areas h hall
    have hms : ∀ p ∈ daterange_month START_YEAR END_YEAR,
        1 ≤ p.1 ∧ p.1 ≤ 9999 ∧ 1 ≤ p.2 ∧ p.2 ≤ 12 := by
      intro p hp
      obtain ⟨py, pm⟩ := p
      have hb := mem_daterange_month.mp hp
      unfold START_YEAR END_YEAR at hb
      exact ⟨by omega, by omega, hb.2.2.1, hb.2.2.2⟩
    obtain ⟨r, hrun⟩ := runMonths_isSome env areas hall
      (daterange_month START_YEAR END_YEAR) hms
    refine ⟨r, ?_, runMonths_some_months env areas _ r hrun⟩
    unfold main mainWith
    rw [h]
    exact hrun

/-- Witness for C9: the failing-registry environment aborts with only the
read error logged; an empty-registry environment runs all 12 configured
months to completion. -/
theorem driver_error_policy_witness :
    main errEnv = some ⟨[], [], [], [LogEvent.readError]⟩ ∧
    (main okEnv).isSome = true ∧
    ((main okEnv).getD ⟨[], [], [], []⟩).months =
      daterange_month START_YEAR END_YEAR := by
  refine ⟨driver_error_policy.1 errEnv rfl, ?_⟩
  obtain ⟨r, hr, hm⟩ := driver_error_policy.2 okEnv [] rfl (by simp)
  rw [hr]
  exact ⟨rfl, hm⟩

/-- C10 (confirmed): a start year strictly greater than the end year gives
an empty month enumeration, so after a successful registry load the run
terminates immediately with no fetch, no write and no month processed. -/
theorem empty_year_range_no_work (y1 y2 : Int) (h : y2 < y1) (env : Env)
    (areas : List AreaRow) (hr : env.readAreas = Except.ok areas) :
    daterange_month y1 y2 = [] ∧
    mainWith y1 y2 env = some ⟨[], [], [], []⟩ := by
  have hnil := daterange_month_eq_nil y1 y2 h
  refine ⟨hnil, ?_⟩
  unfold mainWith
  rw [hr, hnil]
  rfl

/-- Witness for C10: the range 2025..2024 is empty and the run performs no
work. -/
theorem empty_year_range_no_work_witness :
    daterange_month 2025 2024 = [] ∧
    mainWith 2025 2024 okEnv = some ⟨[], [], [], []⟩ :=
  empty_year_range_no_work 2025 2024 (by norm_num) okEnv [] rfl

end Weather
